import Mathlib

/-!
Verification of the connectivity-state aggregator (ConnManager service).

The data model (enumerations and record types with their default
constructors) is embedded from `IConnManagerServiceTypes.h`; the public
getter surface is declared in `IConnManagerService.h`.  The repository
source only declares the contract: the Quantizer, State Store, Change
Detector and Event Dispatcher logic is not present under `src/`, so those
parts are modelled from the specification, as marked in each doc comment.
-/

set_option autoImplicit false

namespace ConnMgr

/-- Signed-char reinterpretation of a byte-sized literal, as C++ does when
initializing a `signed char` field from an integer literal (two's
complement wrap into -128..127). -/
def sint8 (n : Nat) : Int :=
  if n % 256 < 128 then ((n % 256 : Nat) : Int) else ((n % 256 : Nat) : Int) - 256

/-- The `ConApnName` enumeration from `IConnManagerServiceTypes.h`:
ApnName_Public = 0, ApnName_Telematic = 1. -/
inductive ConApnName where
  | ApnName_Public
  | ApnName_Telematic
  deriving DecidableEq, Repr

/-- The `ConMgrErrno` enumeration from `IConnManagerServiceTypes.h`. -/
inductive ConMgrErrno where
  | ConMgrErr_OK
  | ConMgrErr_Fail
  | ConMgrErr_InvalidArgument
  | ConMgrErr_UnavailableService
  | ConMgrErr_Last
  deriving DecidableEq, Repr

/-- The `ConMgrNetworkType` enumeration from `IConnManagerServiceTypes.h`. -/
inductive ConMgrNetworkType where
  | Unknown
  | GSM
  | WCDMA
  | LTE
  | CDMA_1X
  | CDMA_EVDO
  deriving DecidableEq, Repr

/-- The `ConMgrRegistrationStatus` enumeration from
`IConnManagerServiceTypes.h`. -/
inductive ConMgrRegistrationStatus where
  | NADIF_REG_STAT_UNKNOWN
  | NADIF_REG_STAT_NOT_REGISTERED
  | NADIF_REG_STAT_REGISTERED
  | NADIF_REG_STAT_LIMITED
  | NADIF_REG_STAT_REGISTERED_ROAMING
  | NADIF_REG_STAT_CAMPED
  deriving DecidableEq, Repr

/-- `APNConnectionState_s` from `IConnManagerServiceTypes.h`. -/
structure APNConnState where
  interface : ConApnName
  available : Bool
  deriving DecidableEq, Repr

/-- `GsmMetrics` from `IConnManagerServiceTypes.h`: `raw_rssi` is a
`signed char`, `bler` an `unsigned char`. -/
structure GsmMetrics where
  raw_rssi : Int
  bler : Nat
  deriving DecidableEq, Repr

/-- The `GsmMetrics` default constructor: `raw_rssi(0xFF), bler(99)`;
`0xFF` lands in a `signed char`. -/
def GsmMetrics.init : GsmMetrics :=
  { raw_rssi := sint8 0xFF, bler := 99 }

/-- `UmtsMetrics` from `IConnManagerServiceTypes.h`: `raw_rssi` is a
`signed char`, `rscp` and `ecio` are `short int`, `bler` an
`unsigned short int`. -/
structure UmtsMetrics where
  raw_rssi : Int
  rscp : Int
  ecio : Int
  bler : Nat
  deriving DecidableEq, Repr

/-- The `UmtsMetrics` default constructor:
`raw_rssi(0xFF), rscp(0), ecio(0x7FFF), bler(0xFFFF)`. -/
def UmtsMetrics.init : UmtsMetrics :=
  { raw_rssi := sint8 0xFF, rscp := 0, ecio := 0x7FFF, bler := 0xFFFF }

/-- `LteMetrics` from `IConnManagerServiceTypes.h`: `raw_rssi` and `rsrq`
are `signed char`, `rsrp` and `snr` are `short int`. -/
structure LteMetrics where
  raw_rssi : Int
  rsrq : Int
  rsrp : Int
  snr : Int
  deriving DecidableEq, Repr

/-- The `LteMetrics` default constructor:
`raw_rssi(0xFF), rsrq(0x7F), rsrp(0), snr(0x7FFF)`. -/
def LteMetrics.init : LteMetrics :=
  { raw_rssi := sint8 0xFF, rsrq := sint8 0x7F, rsrp := 0, snr := 0x7FFF }

/-- `CellularNbCells` from `IConnManagerServiceTypes.h`. -/
structure CellularNbCells where
  num_gsm_cells : Nat
  num_wcdma_cells : Nat
  num_lte_cells : Nat
  deriving DecidableEq, Repr

/-- The `CellularNbCells` default constructor: all counters zero. -/
def CellularNbCells.init : CellularNbCells :=
  { num_gsm_cells := 0, num_wcdma_cells := 0, num_lte_cells := 0 }

/-- `MAX_NETWORK_NAME_LEN` from `IConnManagerServiceTypes.h`. -/
def MAX_NETWORK_NAME_LEN : Nat := 30

/-- `MAX_CID_LEN` from `IConnManagerServiceTypes.h`. -/
def MAX_CID_LEN : Nat := 16

/-- `MAX_LAC_LEN` from `IConnManagerServiceTypes.h`. -/
def MAX_LAC_LEN : Nat := 5

/-- C `strlen` on a byte buffer: the number of bytes before the first
NUL (returns the whole length if no NUL occurs). -/
def cstrlen : List Nat → Nat
  | [] => 0
  | c :: cs => if c = 0 then 0 else cstrlen cs + 1

/-- `RegistrationStatus` from `IConnManagerServiceTypes.h`; the three char
arrays are modelled as byte lists whose length is the declared capacity. -/
structure RegistrationStatus where
  mnc : Nat
  mcc : Nat
  network_type : ConMgrNetworkType
  network_name : List Nat
  cs_reg_status : ConMgrRegistrationStatus
  ps_reg_status : ConMgrRegistrationStatus
  cid : List Nat
  tac : Nat
  lac : List Nat
  deriving DecidableEq, Repr

/-- `default_network_name` from the `RegistrationStatus` constructor:
29 spaces, and the NUL copied by `strcpy` fills the 30-byte buffer. -/
def default_network_name : List Nat := List.replicate 29 32 ++ [0]

/-- `default_cid` from the `RegistrationStatus` constructor: 15 spaces
plus NUL fills the 16-byte buffer. -/
def default_cid : List Nat := List.replicate 15 32 ++ [0]

/-- `default_lac` from the `RegistrationStatus` constructor: 4 spaces
plus NUL fills the 5-byte buffer. -/
def default_lac : List Nat := List.replicate 4 32 ++ [0]

/-- The `RegistrationStatus` default constructor:
`mnc(0xFFFF), mcc(0xFFFF), network_type(Unknown), cs/ps(UNKNOWN),
tac(0xFFFF)` and the blank-padded strings copied into the buffers. -/
def RegistrationStatus.init : RegistrationStatus :=
  { mnc := 0xFFFF
    mcc := 0xFFFF
    network_type := ConMgrNetworkType.Unknown
    network_name := default_network_name
    cs_reg_status := ConMgrRegistrationStatus.NADIF_REG_STAT_UNKNOWN
    ps_reg_status := ConMgrRegistrationStatus.NADIF_REG_STAT_UNKNOWN
    cid := default_cid
    tac := 0xFFFF
    lac := default_lac }

/-- `DateTime` from `IConnManagerServiceTypes.h`. -/
structure DateTime where
  local_time : Int
  timezone : Nat
  daylt_sav : Nat
  offset : Int
  deriving DecidableEq, Repr

/-- The `DateTime` default constructor:
`local_time(0), timezone(0), daylt_sav(0xFF), offset(0)`. -/
def DateTime.init : DateTime :=
  { local_time := 0, timezone := 0, daylt_sav := 0xFF, offset := 0 }

/-- Signal-quality band of the range table documented on
`getCellularSignalStrength` in `IConnManagerService.h` (spec 4.2). -/
inductive Band where
  | Excellent
  | Good
  | Fair
  | Poor
  | Lost
  deriving DecidableEq, Repr

/-- The range table documented on `onCellularSignalStrengthChanged` /
`getCellularSignalStrength` in `IConnManagerService.h`: band of a raw
RSSI reading (0-100) per network type.  Only GSM, WCDMA and LTE have a
tabulated range; per the spec's testable properties (spec 8), RSSI 0 maps
to Lost under any network type, and the untabulated types have no other
banding (`none`). -/
def bandOf : ConMgrNetworkType → Nat → Option Band
  | ConMgrNetworkType.GSM, r =>
      some (if r = 0 then Band.Lost else if r ≤ 17 then Band.Poor
            else if r ≤ 39 then Band.Fair else if r ≤ 63 then Band.Good
            else Band.Excellent)
  | ConMgrNetworkType.WCDMA, r =>
      some (if r = 0 then Band.Lost else if r ≤ 17 then Band.Poor
            else if r ≤ 29 then Band.Fair else if r ≤ 41 then Band.Good
            else Band.Excellent)
  | ConMgrNetworkType.LTE, r =>
      some (if r = 0 then Band.Lost else if r ≤ 8 then Band.Poor
            else if r ≤ 25 then Band.Fair else if r ≤ 33 then Band.Good
            else Band.Excellent)
  | _, r => if r = 0 then some Band.Lost else none

/-- Modelled from the spec (4.2, Quantizer, absent from `src/`): the
representative value of a band is the band floor of the range table. -/
def bandFloor : ConMgrNetworkType → Band → Nat
  | ConMgrNetworkType.GSM, Band.Excellent => 64
  | ConMgrNetworkType.GSM, Band.Good => 40
  | ConMgrNetworkType.GSM, Band.Fair => 18
  | ConMgrNetworkType.GSM, Band.Poor => 1
  | ConMgrNetworkType.GSM, Band.Lost => 0
  | ConMgrNetworkType.WCDMA, Band.Excellent => 42
  | ConMgrNetworkType.WCDMA, Band.Good => 30
  | ConMgrNetworkType.WCDMA, Band.Fair => 18
  | ConMgrNetworkType.WCDMA, Band.Poor => 1
  | ConMgrNetworkType.WCDMA, Band.Lost => 0
  | ConMgrNetworkType.LTE, Band.Excellent => 34
  | ConMgrNetworkType.LTE, Band.Good => 26
  | ConMgrNetworkType.LTE, Band.Fair => 9
  | ConMgrNetworkType.LTE, Band.Poor => 1
  | ConMgrNetworkType.LTE, Band.Lost => 0
  | _, _ => 0

/-- Modelled from the spec (4.2, Quantizer, absent from `src/`): map a raw
RSSI + NetworkType to one representative value per band (band floor);
the error value 255 is passed through unchanged and never banded; network
types without a range table pass the raw value through. -/
def quantize (nt : ConMgrNetworkType) (r : Nat) : Nat :=
  if r = 255 then 255
  else
    match bandOf nt r with
    | some b => bandFloor nt b
    | none => r

/-- Predicate of the bounded-text invariant (spec 3, RegistrationStatus):
the buffer has exactly the declared capacity and is NUL-terminated with
`strlen` strictly below capacity. -/
def boundedTextOk (buf : List Nat) (cap : Nat) : Prop :=
  buf.length = cap ∧ cstrlen buf < cap

instance (buf : List Nat) (cap : Nat) : Decidable (boundedTextOk buf cap) :=
  inferInstanceAs (Decidable (_ ∧ _))

/-- The invariant of `RegistrationStatus` values (spec 3): every
bounded-text field keeps the bounded-text invariant. -/
def regStatusOk (r : RegistrationStatus) : Prop :=
  boundedTextOk r.network_name MAX_NETWORK_NAME_LEN ∧
  boundedTextOk r.cid MAX_CID_LEN ∧
  boundedTextOk r.lac MAX_LAC_LEN

instance (r : RegistrationStatus) : Decidable (regStatusOk r) :=
  inferInstanceAs (Decidable (_ ∧ _ ∧ _))

/-- Modelled from the spec (4.1, State Store, absent from `src/`): one
current value per tracked signal — network type, per-interface APN state,
MCC, WiFi data state, signal strength band, modem availability,
Gsm/Umts/Lte metrics, neighbor cells, registration status, cellular time,
system time and data path.  Field defaults come from the
`IConnManagerServiceTypes.h` default constructors; signals with no struct
constructor get the sentinel the spec documents (MCC 0xFFFF, network
type Unknown, signal strength 255 = error). -/
structure StateStore where
  networkType : ConMgrNetworkType
  apnPublicConnected : Bool
  apnTelematicConnected : Bool
  mcc : Nat
  wifiDataConnected : Bool
  signalStrength : Nat
  modemAvailable : Bool
  gsm : GsmMetrics
  umts : UmtsMetrics
  lte : LteMetrics
  nbCells : CellularNbCells
  regStatus : RegistrationStatus
  cellularTime : DateTime
  systemTime : Int
  dataPath : String
  deriving DecidableEq, Repr

/-- Modelled from the spec (3, Lifecycle): every entity is created at
State Store initialization with its sentinel/unknown value. -/
def StateStore.initial : StateStore :=
  { networkType := ConMgrNetworkType.Unknown
    apnPublicConnected := false
    apnTelematicConnected := false
    mcc := 0xFFFF
    wifiDataConnected := false
    signalStrength := 255
    modemAvailable := false
    gsm := GsmMetrics.init
    umts := UmtsMetrics.init
    lte := LteMetrics.init
    nbCells := CellularNbCells.init
    regStatus := RegistrationStatus.init
    cellularTime := DateTime.init
    systemTime := 0
    dataPath := "no data" }

/-- Modelled from the spec (4.1): `write` replaces the stored value and
reports whether it differs from the previous value.  Signal strength is
written after quantization (4.3), so raw-value equality on the stored
value is the banded equality. -/
def writeSignalStrength (s : StateStore) (v : Nat) : StateStore × Bool :=
  ({ s with signalStrength := v }, decide (v ≠ s.signalStrength))

/-- Modelled from the spec (4.1/4.3): write of the cellular network type. -/
def writeNetworkType (s : StateStore) (v : ConMgrNetworkType) : StateStore × Bool :=
  ({ s with networkType := v }, decide (v ≠ s.networkType))

/-- Modelled from the spec (4.1/4.3): write of one APN interface's
connection state; the interface argument is the raw enumeration integer
(`ApnName_Public` = 0, `ApnName_Telematic` = 1); out-of-domain updates
are rejected unchanged (spec 7: each update is validated and rejected
independently). -/
def writeApnConState (s : StateStore) (interface : Nat) (v : Bool) : StateStore × Bool :=
  if interface = 0 then
    ({ s with apnPublicConnected := v }, decide (v ≠ s.apnPublicConnected))
  else if interface = 1 then
    ({ s with apnTelematicConnected := v }, decide (v ≠ s.apnTelematicConnected))
  else (s, false)

/-- Modelled from the spec (4.1/4.3): write of the mobile country code. -/
def writeMCC (s : StateStore) (v : Nat) : StateStore × Bool :=
  ({ s with mcc := v }, decide (v ≠ s.mcc))

/-- Modelled from the spec (4.1/4.3): write of the WiFi data state. -/
def writeWifiDataConState (s : StateStore) (v : Bool) : StateStore × Bool :=
  ({ s with wifiDataConnected := v }, decide (v ≠ s.wifiDataConnected))

/-- Modelled from the spec (4.1/4.3): write of modem availability. -/
def writeModemAvailability (s : StateStore) (v : Bool) : StateStore × Bool :=
  ({ s with modemAvailable := v }, decide (v ≠ s.modemAvailable))

/-- Modelled from the spec (4.1/4.3): write of the GSM metrics record. -/
def writeGsmMetrics (s : StateStore) (v : GsmMetrics) : StateStore × Bool :=
  ({ s with gsm := v }, decide (v ≠ s.gsm))

/-- Modelled from the spec (4.1/4.3): write of the UMTS metrics record. -/
def writeUmtsMetrics (s : StateStore) (v : UmtsMetrics) : StateStore × Bool :=
  ({ s with umts := v }, decide (v ≠ s.umts))

/-- Modelled from the spec (4.1/4.3): write of the LTE metrics record. -/
def writeLteMetrics (s : StateStore) (v : LteMetrics) : StateStore × Bool :=
  ({ s with lte := v }, decide (v ≠ s.lte))

/-- Modelled from the spec (4.1/4.3): write of the neighbor-cell counts. -/
def writeNbCells (s : StateStore) (v : CellularNbCells) : StateStore × Bool :=
  ({ s with nbCells := v }, decide (v ≠ s.nbCells))

/-- Modelled from the spec (4.1/4.3 and 7): write of the registration
status; the update is validated against the bounded-text invariant and
rejected independently when malformed. -/
def writeRegistrationStatus (s : StateStore) (v : RegistrationStatus) : StateStore × Bool :=
  if regStatusOk v then ({ s with regStatus := v }, decide (v ≠ s.regStatus))
  else (s, false)

/-- Modelled from the spec (4.1/4.3): write of the cellular time. -/
def writeCellularTime (s : StateStore) (v : DateTime) : StateStore × Bool :=
  ({ s with cellularTime := v }, decide (v ≠ s.cellularTime))

/-- Modelled from the spec (4.1/4.3): write of the system time, a `time_t`
value in epoch seconds. -/
def writeSystemTime (s : StateStore) (v : Int) : StateStore × Bool :=
  ({ s with systemTime := v }, decide (v ≠ s.systemTime))

/-- Modelled from the spec (4.1/4.3): write of the data-path mode. -/
def writeDataPath (s : StateStore) (v : String) : StateStore × Bool :=
  ({ s with dataPath := v }, decide (v ≠ s.dataPath))

/-- Modelled from the spec (4.5, Query API, absent from `src/`;
declaration `getCellularNetworkType` in `IConnManagerService.h`): a pure
read of the State Store returning the value and `ConMgrErr_OK`. -/
def getCellularNetworkType (s : StateStore) : ConMgrNetworkType × ConMgrErrno :=
  (s.networkType, ConMgrErrno.ConMgrErr_OK)

/-- Modelled from the spec (4.5; declaration `getApnConState` in
`IConnManagerService.h`): the interface argument is the raw enumeration
integer; a value outside the `ConApnName` enumeration {0, 1} yields
`ConMgrErr_InvalidArgument`. -/
def getApnConState (s : StateStore) (interface : Nat) : Bool × ConMgrErrno :=
  if interface = 0 then (s.apnPublicConnected, ConMgrErrno.ConMgrErr_OK)
  else if interface = 1 then (s.apnTelematicConnected, ConMgrErrno.ConMgrErr_OK)
  else (false, ConMgrErrno.ConMgrErr_InvalidArgument)

/-- Modelled from the spec (4.5; declaration `getCellularMCC`). -/
def getCellularMCC (s : StateStore) : Nat × ConMgrErrno :=
  (s.mcc, ConMgrErrno.ConMgrErr_OK)

/-- Modelled from the spec (4.5; declaration `getWiFiDataConState`). -/
def getWiFiDataConState (s : StateStore) : Bool × ConMgrErrno :=
  (s.wifiDataConnected, ConMgrErrno.ConMgrErr_OK)

/-- Modelled from the spec (4.5; declaration
`getCellularSignalStrength`). -/
def getCellularSignalStrength (s : StateStore) : Nat × ConMgrErrno :=
  (s.signalStrength, ConMgrErrno.ConMgrErr_OK)

/-- Modelled from the spec (4.5; declaration
`getCellularModemAvailability`). -/
def getCellularModemAvailability (s : StateStore) : Bool × ConMgrErrno :=
  (s.modemAvailable, ConMgrErrno.ConMgrErr_OK)

/-- Modelled from the spec (4.5; declaration `getGsmMetrics`). -/
def getGsmMetrics (s : StateStore) : GsmMetrics × ConMgrErrno :=
  (s.gsm, ConMgrErrno.ConMgrErr_OK)

/-- Modelled from the spec (4.5; declaration `getUmtsMetrics`). -/
def getUmtsMetrics (s : StateStore) : UmtsMetrics × ConMgrErrno :=
  (s.umts, ConMgrErrno.ConMgrErr_OK)

/-- Modelled from the spec (4.5; declaration `getLteMetrics`). -/
def getLteMetrics (s : StateStore) : LteMetrics × ConMgrErrno :=
  (s.lte, ConMgrErrno.ConMgrErr_OK)

/-- Modelled from the spec (4.5; declaration `getCellularNbCells`). -/
def getCellularNbCells (s : StateStore) : CellularNbCells × ConMgrErrno :=
  (s.nbCells, ConMgrErrno.ConMgrErr_OK)

/-- Modelled from the spec (4.5; declaration `getRegistrationStatus`). -/
def getRegistrationStatus (s : StateStore) : RegistrationStatus × ConMgrErrno :=
  (s.regStatus, ConMgrErrno.ConMgrErr_OK)

/-- Modelled from the spec (4.5; declaration `getCellularTime`). -/
def getCellularTime (s : StateStore) : DateTime × ConMgrErrno :=
  (s.cellularTime, ConMgrErrno.ConMgrErr_OK)

/-- Modelled from the spec (4.5; declaration `getSystemTime` in
`IConnManagerService.h`, returning a `time_t`). -/
def getSystemTime (s : StateStore) : Int × ConMgrErrno :=
  (s.systemTime, ConMgrErrno.ConMgrErr_OK)

/-- Modelled from the spec (4.5; declaration `getDataPath`). -/
def getDataPath (s : StateStore) : String × ConMgrErrno :=
  (s.dataPath, ConMgrErrno.ConMgrErr_OK)

/-- Modelled from the spec (4.3, Change Detector, absent from `src/`):
the pending-transition queue holds `(signalId, payload)` pairs.  A newer
reading for a signal already pending replaces that entry's payload in
place (coalescing); a signal with no pending entry is appended at the
tail (first-enqueued-first-dispatched). -/
def enqueue : List (Nat × Nat) → Nat → Nat → List (Nat × Nat)
  | [], sig, v => [(sig, v)]
  | e :: q, sig, v => if e.1 = sig then (sig, v) :: q else e :: enqueue q sig v

/-- Enqueue a burst of raw payloads for one signal, in arrival order. -/
def enqueueMany (q : List (Nat × Nat)) (sig : Nat) : List Nat → List (Nat × Nat)
  | [] => q
  | v :: vs => enqueueMany (enqueue q sig v) sig vs

/-- The queue reached from empty by a sequence of enqueued transitions. -/
def runDetector (updates : List (Nat × Nat)) : List (Nat × Nat) :=
  updates.foldl (fun q u => enqueue q u.1 u.2) []

/-- Modelled from the spec (4.4, Event Dispatcher, absent from `src/`):
drain the queue in order, delivering each transition to each subscriber
of its signal in registration order; one triple
`(subscriberId, signalId, payload)` per delivery. -/
def deliverAll (subs : Nat → List Nat) (q : List (Nat × Nat)) :
    List (Nat × Nat × Nat) :=
  q.flatMap (fun e => (subs e.1).map (fun sub => (sub, e.1, e.2)))

/-- Modelled from the spec (4.4, Event Dispatcher, absent from `src/`):
one dispatch round over a snapshot of the subscriber list.  A subscriber
is a pair of an id and a callback that reports success or failure on the
delivered payload; every callback is invoked in registration order, a
failing callback is recorded for the diagnostics sink, and the round
never touches the State Store.  Returns
(ids notified, ids reported failing, resulting store). -/
def dispatchRound (s : StateStore) (v : Nat) :
    List (Nat × (Nat → Bool)) → List Nat × List Nat × StateStore
  | [] => ([], [], s)
  | c :: cs =>
    let rest := dispatchRound s v cs
    (c.1 :: rest.1, (if c.2 v then rest.2.1 else c.1 :: rest.2.1), rest.2.2)

/-- Modelled from the spec (4.4 and the `onCellularTime` documentation in
`IConnManagerService.h`: event triggered every 5 minutes): the times (in
seconds, counted from service start) at which the DateTimeInfo heartbeat
fires during the first `n` seconds, with no signal changes at all — the
fixed-period timer fires at every multiple of 300 s. -/
def heartbeatTimes : Nat → List Nat
  | 0 => []
  | n + 1 => heartbeatTimes n ++ (if (n + 1) % 300 = 0 then [n + 1] else [])

/-- Store states reachable from a start state by a sequence of attempted
registration-status writes (each validated independently, spec 7). -/
def applyRegWrites (s : StateStore) (rs : List RegistrationStatus) : StateStore :=
  rs.foldl (fun st r => (writeRegistrationStatus st r).1) s

/-! ## Helper lemmas -/

theorem quantize_congr (nt : ConMgrNetworkType) (r1 r2 : Nat)
    (hnt : nt = ConMgrNetworkType.GSM ∨ nt = ConMgrNetworkType.WCDMA ∨
      nt = ConMgrNetworkType.LTE)
    (h1 : r1 ≤ 100) (h2 : r2 ≤ 100) (hb : bandOf nt r1 = bandOf nt r2) :
    quantize nt r1 = quantize nt r2 := by
  have hr1 : r1 ≠ 255 := by omega
  have hr2 : r2 ≠ 255 := by omega
  rcases hnt with h | h | h <;> subst h <;>
    simp only [bandOf, Option.some.injEq] at hb <;>
    simp [quantize, bandOf, hr1, hr2, hb]

theorem quantize_ne_error (nt : ConMgrNetworkType) (r : Nat)
    (hr : r ≤ 100) : quantize nt r ≠ 255 := by
  have hr255 : r ≠ 255 := by omega
  cases nt <;> simp only [quantize, bandOf, if_neg hr255] <;>
    split_ifs <;> simp [bandFloor] <;> omega

theorem enqueue_fresh (q : List (Nat × Nat)) (sig v : Nat)
    (h : sig ∉ q.map Prod.fst) : enqueue q sig v = q ++ [(sig, v)] := by
  induction q with
  | nil => rfl
  | cons e q ih =>
    simp only [List.map_cons, List.mem_cons, not_or] at h
    simp [enqueue, Ne.symm h.1, ih h.2]

theorem enqueue_coalesce (q : List (Nat × Nat)) (sig v w : Nat)
    (h : sig ∉ q.map Prod.fst) :
    enqueue (q ++ [(sig, v)]) sig w = q ++ [(sig, w)] := by
  induction q with
  | nil => simp [enqueue]
  | cons e q ih =>
    simp only [List.map_cons, List.mem_cons, not_or] at h
    simp [enqueue, Ne.symm h.1, ih h.2]

theorem keys_enqueue (q : List (Nat × Nat)) (sig v : Nat) :
    (enqueue q sig v).map Prod.fst =
      if sig ∈ q.map Prod.fst then q.map Prod.fst
      else q.map Prod.fst ++ [sig] := by
  induction q with
  | nil => simp [enqueue]
  | cons e q ih =>
    by_cases h : e.1 = sig
    · simp [enqueue, h]
    · have hne : sig ≠ e.1 := fun he => h he.symm
      by_cases hmem : sig ∈ q.map Prod.fst
      · simp [enqueue, h, ih, hmem, hne]
      · simp [enqueue, h, ih, hmem, hne]

theorem nodup_keys_enqueue (q : List (Nat × Nat)) (sig v : Nat)
    (h : (q.map Prod.fst).Nodup) :
    ((enqueue q sig v).map Prod.fst).Nodup := by
  rw [keys_enqueue]
  split_ifs with hmem
  · exact h
  · simp [List.nodup_append, h, hmem]

theorem enqueueMany_after_pending (q : List (Nat × Nat)) (sig v : Nat)
    (us : List Nat) (h : sig ∉ q.map Prod.fst) :
    enqueueMany (q ++ [(sig, v)]) sig us = q ++ [(sig, us.getLastD v)] := by
  induction us generalizing v with
  | nil => simp [enqueueMany]
  | cons w ws ih =>
    rw [enqueueMany, enqueue_coalesce q sig v w h, ih w, List.getLastD_cons]

theorem enqueueMany_fresh (q : List (Nat × Nat)) (sig v : Nat) (us : List Nat)
    (h : sig ∉ q.map Prod.fst) :
    enqueueMany q sig (v :: us) = q ++ [(sig, us.getLastD v)] := by
  rw [enqueueMany, enqueue_fresh q sig v h, enqueueMany_after_pending q sig v us h]

theorem runDetector_keys_nodup (updates : List (Nat × Nat)) :
    ((runDetector updates).map Prod.fst).Nodup := by
  suffices h : ∀ q : List (Nat × Nat), (q.map Prod.fst).Nodup →
      ((updates.foldl (fun q u => enqueue q u.1 u.2) q).map Prod.fst).Nodup by
    exact h [] (by simp)
  induction updates with
  | nil => intro q hq; simpa using hq
  | cons u us ih =>
    intro q hq
    exact ih _ (nodup_keys_enqueue _ _ _ hq)

theorem deliverAll_append (subs : Nat → List Nat) (q1 q2 : List (Nat × Nat)) :
    deliverAll subs (q1 ++ q2) = deliverAll subs q1 ++ deliverAll subs q2 := by
  simp [deliverAll]

theorem dispatchRound_delivered (s : StateStore) (v : Nat)
    (cs : List (Nat × (Nat → Bool))) :
    (dispatchRound s v cs).1 = cs.map Prod.fst := by
  induction cs with
  | nil => rfl
  | cons c cs ih => simp [dispatchRound, ih]

theorem dispatchRound_store (s : StateStore) (v : Nat)
    (cs : List (Nat × (Nat → Bool))) :
    (dispatchRound s v cs).2.2 = s := by
  induction cs with
  | nil => rfl
  | cons c cs ih => simp [dispatchRound, ih]

theorem heartbeatTimes_closed_form (n : Nat) :
    heartbeatTimes n = (List.range (n / 300)).map (fun k => 300 * (k + 1)) := by
  induction n with
  | zero => rfl
  | succ n ih =>
    rw [heartbeatTimes, ih]
    by_cases h : (n + 1) % 300 = 0
    · have h3 : (n + 1) / 300 = n / 300 + 1 := by omega
      have h4 : 300 * (n / 300 + 1) = n + 1 := by omega
      rw [h3, List.range_succ, List.map_append, if_pos h]
      simp only [List.map_cons, List.map_nil, h4]
    · have h3 : (n + 1) / 300 = n / 300 := by omega
      rw [h3, if_neg h]
      simp

theorem applyRegWrites_ok (s : StateStore) (rs : List RegistrationStatus)
    (h : regStatusOk s.regStatus) :
    regStatusOk (applyRegWrites s rs).regStatus := by
  induction rs generalizing s with
  | nil => exact h
  | cons r rs ih =>
    show regStatusOk (applyRegWrites (writeRegistrationStatus s r).1 rs).regStatus
    apply ih
    unfold writeRegistrationStatus
    split_ifs with hr
    · exact hr
    · exact h

/-! ## Claim theorems -/

/-- C1: for every fixed NetworkType in {GSM, WCDMA, LTE} and every two raw
RSSI readings r1, r2 in 0-100 that fall in the same band of the 4.2 range
table, performing `write` of `quantize r2` after `write` of `quantize r1`
reports `changed = false`, so no signal-strength transition is emitted for
within-band fluctuation. -/
theorem quantized_write_within_band_unchanged (nt : ConMgrNetworkType)
    (r1 r2 : Nat) (s : StateStore)
    (hnt : nt = ConMgrNetworkType.GSM ∨ nt = ConMgrNetworkType.WCDMA ∨
      nt = ConMgrNetworkType.LTE)
    (h1 : r1 ≤ 100) (h2 : r2 ≤ 100) (hb : bandOf nt r1 = bandOf nt r2) :
    (writeSignalStrength (writeSignalStrength s (quantize nt r1)).1
        (quantize nt r2)).2 = false := by
  have hq := quantize_congr nt r1 r2 hnt h1 h2 hb
  simp [writeSignalStrength, hq]

/-- Witness for C1 at NetworkType GSM with readings 40 and 63 (both in the
Good band) on the fresh store. -/
theorem quantized_write_within_band_unchanged_witness :
    (writeSignalStrength
        (writeSignalStrength StateStore.initial
          (quantize ConMgrNetworkType.GSM 40)).1
        (quantize ConMgrNetworkType.GSM 63)).2 = false :=
  quantized_write_within_band_unchanged ConMgrNetworkType.GSM 40 63
    StateStore.initial (Or.inl rfl) (by decide) (by decide) (by decide)

/-- C2: the band boundaries are inclusive exactly as tabulated: raw RSSI
64 under GSM is Excellent, 63 under GSM is Good, 0 under every
NetworkType is Lost; the input 255 is passed through unchanged as the
error value (the Quantizer short-circuits before any band lookup) and
compares equal only to itself, since no valid reading quantizes to 255. -/
theorem band_table_exactness (nt : ConMgrNetworkType) (r : Nat)
    (hr : r ≤ 100) :
    bandOf ConMgrNetworkType.GSM 64 = some Band.Excellent ∧
    bandOf ConMgrNetworkType.GSM 63 = some Band.Good ∧
    bandOf nt 0 = some Band.Lost ∧
    quantize nt 255 = 255 ∧
    quantize nt r ≠ 255 := by
  refine ⟨by decide, by decide, ?_, ?_, quantize_ne_error nt r hr⟩
  · cases nt <;> decide
  · cases nt <;> decide

/-- Witness for C2 at NetworkType CDMA_1X (outside the tabulated three)
and reading 42. -/
theorem band_table_exactness_witness :
    bandOf ConMgrNetworkType.GSM 64 = some Band.Excellent ∧
    bandOf ConMgrNetworkType.GSM 63 = some Band.Good ∧
    bandOf ConMgrNetworkType.CDMA_1X 0 = some Band.Lost ∧
    quantize ConMgrNetworkType.CDMA_1X 255 = 255 ∧
    quantize ConMgrNetworkType.CDMA_1X 42 ≠ 255 :=
  band_table_exactness ConMgrNetworkType.CDMA_1X 42 (by decide)

/-- C3: in every queue state reachable by the Change Detector at most one
pending transition exists per signal; a burst of updates to one signal
before dispatch yields exactly one delivered event per subscriber of that
signal, carrying the last value; transitions enqueued for distinct
signals A then B land in the queue, and are delivered, in that relative
first-enqueued-first-dispatched order. -/
theorem detector_coalescing_and_order (updates : List (Nat × Nat))
    (q : List (Nat × Nat)) (subs : Nat → List Nat)
    (sig v A B vA vB : Nat) (us : List Nat)
    (hsig : sig ∉ q.map Prod.fst) (hA : A ∉ q.map Prod.fst)
    (hB : B ∉ q.map Prod.fst) (hAB : A ≠ B) :
    ((runDetector updates).map Prod.fst).Nodup ∧
    deliverAll subs (enqueueMany q sig (v :: us)) =
      deliverAll subs q ++
        (subs sig).map (fun sub => (sub, sig, us.getLastD v)) ∧
    enqueue (enqueue q A vA) B vB = q ++ [(A, vA), (B, vB)] ∧
    deliverAll subs (enqueue (enqueue q A vA) B vB) =
      deliverAll subs q ++ (subs A).map (fun sub => (sub, A, vA)) ++
        (subs B).map (fun sub => (sub, B, vB)) := by
  have horder : enqueue (enqueue q A vA) B vB = q ++ [(A, vA), (B, vB)] := by
    rw [enqueue_fresh q A vA hA]
    have hB2 : B ∉ (q ++ [(A, vA)]).map Prod.fst := by
      have hBA : B ≠ A := fun h => hAB h.symm
      simp [hB, hBA]
    rw [enqueue_fresh _ B vB hB2, List.append_assoc]
    rfl
  refine ⟨runDetector_keys_nodup updates, ?_, horder, ?_⟩
  · rw [enqueueMany_fresh q sig v us hsig, deliverAll_append]
    simp [deliverAll]
  · rw [horder, deliverAll_append, List.append_assoc]
    simp [deliverAll]

/-- Witness for C3: queue empty, two subscribers per signal, a burst of
three updates to signal 0, then fresh signals 4 and 5. -/
theorem detector_coalescing_and_order_witness :
    ((runDetector [(1, 2), (1, 3)]).map Prod.fst).Nodup ∧
    deliverAll (fun _ => [7, 8]) (enqueueMany [] 0 (1 :: [2, 3])) =
      deliverAll (fun _ => [7, 8]) [] ++
        ([7, 8].map (fun sub => (sub, 0, [2, 3].getLastD 1))) ∧
    enqueue (enqueue [] 4 10) 5 11 = [] ++ [(4, 10), (5, 11)] ∧
    deliverAll (fun _ => [7, 8]) (enqueue (enqueue [] 4 10) 5 11) =
      deliverAll (fun _ => [7, 8]) [] ++
        ([7, 8].map (fun sub => (sub, 4, 10))) ++
        ([7, 8].map (fun sub => (sub, 5, 11))) :=
  detector_coalescing_and_order [(1, 2), (1, 3)] [] (fun _ => [7, 8])
    0 1 4 5 10 11 [2, 3] (by simp) (by simp) (by simp) (by decide)

/-- C4: for every tracked signal and every value v, the getter read
immediately after a successful `write` of v returns v together with
`ConMgrErr_OK`; each getter is a pure read of the State Store (it takes
the store and returns only a value and an error code, so it can neither
trigger a modem query nor modify stored state). -/
theorem getters_read_after_write (s : StateStore) (nt : ConMgrNetworkType)
    (pb tb wb mb : Bool) (m ss : Nat) (g : GsmMetrics) (u : UmtsMetrics)
    (l : LteMetrics) (nc : CellularNbCells) (r : RegistrationStatus)
    (dt : DateTime) (st : Int) (dp : String) (hr : regStatusOk r) :
    getCellularNetworkType (writeNetworkType s nt).1 =
      (nt, ConMgrErrno.ConMgrErr_OK) ∧
    getApnConState (writeApnConState s 0 pb).1 0 =
      (pb, ConMgrErrno.ConMgrErr_OK) ∧
    getApnConState (writeApnConState s 1 tb).1 1 =
      (tb, ConMgrErrno.ConMgrErr_OK) ∧
    getCellularMCC (writeMCC s m).1 = (m, ConMgrErrno.ConMgrErr_OK) ∧
    getWiFiDataConState (writeWifiDataConState s wb).1 =
      (wb, ConMgrErrno.ConMgrErr_OK) ∧
    getCellularSignalStrength (writeSignalStrength s ss).1 =
      (ss, ConMgrErrno.ConMgrErr_OK) ∧
    getCellularModemAvailability (writeModemAvailability s mb).1 =
      (mb, ConMgrErrno.ConMgrErr_OK) ∧
    getGsmMetrics (writeGsmMetrics s g).1 = (g, ConMgrErrno.ConMgrErr_OK) ∧
    getUmtsMetrics (writeUmtsMetrics s u).1 = (u, ConMgrErrno.ConMgrErr_OK) ∧
    getLteMetrics (writeLteMetrics s l).1 = (l, ConMgrErrno.ConMgrErr_OK) ∧
    getCellularNbCells (writeNbCells s nc).1 =
      (nc, ConMgrErrno.ConMgrErr_OK) ∧
    getRegistrationStatus (writeRegistrationStatus s r).1 =
      (r, ConMgrErrno.ConMgrErr_OK) ∧
    getCellularTime (writeCellularTime s dt).1 =
      (dt, ConMgrErrno.ConMgrErr_OK) ∧
    getSystemTime (writeSystemTime s st).1 = (st, ConMgrErrno.ConMgrErr_OK) ∧
    getDataPath (writeDataPath s dp).1 = (dp, ConMgrErrno.ConMgrErr_OK) := by
  refine ⟨rfl, ?_, ?_, rfl, rfl, rfl, rfl, rfl, rfl, rfl, rfl, ?_, rfl, rfl, rfl⟩
  · simp [writeApnConState, getApnConState]
  · simp [writeApnConState, getApnConState]
  · simp [writeRegistrationStatus, getRegistrationStatus, hr]

/-- Witness for C4 on the fresh store, shown for the network-type signal,
with the valid default registration record discharging the validation
hypothesis. -/
theorem getters_read_after_write_witness :
    getCellularNetworkType
      (writeNetworkType StateStore.initial ConMgrNetworkType.LTE).1 =
      (ConMgrNetworkType.LTE, ConMgrErrno.ConMgrErr_OK) :=
  (getters_read_after_write StateStore.initial ConMgrNetworkType.LTE
    true false true false 208 64 GsmMetrics.init UmtsMetrics.init
    LteMetrics.init CellularNbCells.init RegistrationStatus.init
    DateTime.init 1700000000 "cellular" (by decide)).1

/-- C5 counterexample: on the freshly initialized store, `getGsmMetrics`
returns a record whose `raw_rssi` is NOT equal to 0xFF: the field is a
signed byte, so the stored sentinel reads as -1, not 255. -/
theorem fresh_raw_rssi_not_unsigned_255 :
    ¬ ((getGsmMetrics StateStore.initial).1.raw_rssi = (0xFF : Int)) := by
  decide

/-- C5 (amended): on a freshly initialized State Store the getters return
the documented sentinel defaults with `ConMgrErr_OK`:
`getRegistrationStatus` returns mcc = 0xFFFF, `getCellularNetworkType`
returns Unknown, and the three metrics getters return records whose
`raw_rssi` field holds the sentinel initialized from the literal 0xFF,
which in the signed byte field equals -1. -/
theorem fresh_store_sentinel_defaults :
    (getRegistrationStatus StateStore.initial).2 = ConMgrErrno.ConMgrErr_OK ∧
    (getRegistrationStatus StateStore.initial).1.mcc = 0xFFFF ∧
    getCellularNetworkType StateStore.initial =
      (ConMgrNetworkType.Unknown, ConMgrErrno.ConMgrErr_OK) ∧
    (getGsmMetrics StateStore.initial).2 = ConMgrErrno.ConMgrErr_OK ∧
    (getGsmMetrics StateStore.initial).1.raw_rssi = sint8 0xFF ∧
    (getUmtsMetrics StateStore.initial).2 = ConMgrErrno.ConMgrErr_OK ∧
    (getUmtsMetrics StateStore.initial).1.raw_rssi = sint8 0xFF ∧
    (getLteMetrics StateStore.initial).2 = ConMgrErrno.ConMgrErr_OK ∧
    (getLteMetrics StateStore.initial).1.raw_rssi = sint8 0xFF ∧
    sint8 0xFF = -1 := by
  decide

/-- C6: `getApnConState` returns `ConMgrErr_InvalidArgument` exactly for
interface arguments outside the `ConApnName` enumeration
{ApnName_Public = 0, ApnName_Telematic = 1}. -/
theorem apn_state_invalid_interface (s : StateStore) (interface : Nat) :
    (2 ≤ interface →
      (getApnConState s interface).2 = ConMgrErrno.ConMgrErr_InvalidArgument) ∧
    (interface ≤ 1 →
      (getApnConState s interface).2 ≠ ConMgrErrno.ConMgrErr_InvalidArgument) := by
  unfold getApnConState
  constructor
  · intro h2
    rw [if_neg (by omega), if_neg (by omega)]
  · intro h1
    rcases Nat.le_one_iff_eq_zero_or_eq_one.mp h1 with h | h <;> subst h <;> simp

/-- Witness for C6: interface 7 is rejected as InvalidArgument, interface
1 (ApnName_Telematic) is not. -/
theorem apn_state_invalid_interface_witness :
    (getApnConState StateStore.initial 7).2 =
      ConMgrErrno.ConMgrErr_InvalidArgument ∧
    (getApnConState StateStore.initial 1).2 ≠
      ConMgrErrno.ConMgrErr_InvalidArgument :=
  ⟨(apn_state_invalid_interface StateStore.initial 7).1 (by decide),
   (apn_state_invalid_interface StateStore.initial 1).2 (by decide)⟩

/-- C7: in a dispatch round over subscribers registered as
`pre ++ (fid, fcb) :: post`, if the earlier subscriber `fcb` fails on the
delivered payload, every later-registered subscriber in `post` still
receives the notification, and the State Store is unchanged by the
failure. -/
theorem dispatch_subscriber_isolation (s : StateStore) (v : Nat)
    (pre post : List (Nat × (Nat → Bool))) (fid : Nat) (fcb : Nat → Bool)
    (hfail : fcb v = false) :
    (∀ c ∈ post, c.1 ∈ (dispatchRound s v (pre ++ (fid, fcb) :: post)).1) ∧
    (dispatchRound s v (pre ++ (fid, fcb) :: post)).2.2 = s := by
  refine ⟨?_, dispatchRound_store s v _⟩
  intro c hc
  rw [dispatchRound_delivered]
  simp only [List.map_append, List.map_cons, List.mem_append, List.mem_cons]
  exact Or.inr (Or.inr (List.mem_map_of_mem Prod.fst hc))

/-- Witness for C7: subscriber 9 fails on payload 5; subscriber 2,
registered after it, is still notified and the store is untouched. -/
theorem dispatch_subscriber_isolation_witness :
    2 ∈ (dispatchRound StateStore.initial 5
        (([(1, fun _ => true)] : List (Nat × (Nat → Bool))) ++
          (9, fun _ => false) :: [(2, fun _ => true)])).1 ∧
    (dispatchRound StateStore.initial 5
        (([(1, fun _ => true)] : List (Nat × (Nat → Bool))) ++
          (9, fun _ => false) :: [(2, fun _ => true)])).2.2 =
      StateStore.initial :=
  ⟨(dispatch_subscriber_isolation StateStore.initial 5 [(1, fun _ => true)]
      [(2, fun _ => true)] 9 (fun _ => false) rfl).1 (2, fun _ => true)
      (by simp),
   (dispatch_subscriber_isolation StateStore.initial 5 [(1, fun _ => true)]
      [(2, fun _ => true)] 9 (fun _ => false) rfl).2⟩

/-- C8: with no signal changes at all, the 5-minute heartbeat delivers a
DateTimeInfo event exactly once in each 5-minute interval
(300k, 300(k+1)] of a run of m intervals, and m times in total. -/
theorem heartbeat_once_per_interval (m k : Nat) (hk : k < m) :
    ((heartbeatTimes (300 * m)).filter
        (fun t => decide (300 * k < t) && decide (t ≤ 300 * (k + 1)))).length = 1 ∧
    (heartbeatTimes (300 * m)).length = m := by
  rw [heartbeatTimes_closed_form]
  have hm : 300 * m / 300 = m := by omega
  rw [hm]
  constructor
  · rw [← List.countP_eq_length_filter, List.countP_map]
    have h1 : List.countP
        ((fun t => decide (300 * k < t) && decide (t ≤ 300 * (k + 1))) ∘
          (fun j => 300 * (j + 1))) (List.range m) =
        List.countP (· == k) (List.range m) := by
      apply List.countP_congr
      intro j _
      simp only [Function.comp_apply, Bool.and_eq_true, decide_eq_true_eq,
        beq_iff_eq]
      omega
    rw [h1, ← List.count_eq_countP,
      List.count_eq_one_of_mem (List.nodup_range m) (List.mem_range.mpr hk)]
  · simp

/-- Witness for C8 over a single 5-minute interval. -/
theorem heartbeat_once_per_interval_witness :
    ((heartbeatTimes (300 * 1)).filter
        (fun t => decide (300 * 0 < t) && decide (t ≤ 300 * (0 + 1)))).length = 1 ∧
    (heartbeatTimes (300 * 1)).length = 1 :=
  heartbeat_once_per_interval 1 0 (by decide)

/-- C9: every RegistrationStatus value observable through the public
interface — the default-constructed record of the fresh store and every
record stored by a validated write — keeps the bounded-text invariant
(fixed-capacity, NUL-terminated buffers with strlen strictly below the
30/16/5 capacities); the unset state holds the blank-padded sentinel
strings of 29, 15 and 4 spaces while unset numeric codes hold 0xFFFF, so
in particular the assertions of the default constructor always hold. -/
theorem registration_bounded_text_invariant (rs : List RegistrationStatus) :
    regStatusOk (getRegistrationStatus (applyRegWrites StateStore.initial rs)).1 ∧
    cstrlen default_network_name = 29 ∧
    cstrlen default_cid = 15 ∧
    cstrlen default_lac = 4 ∧
    cstrlen default_network_name < MAX_NETWORK_NAME_LEN ∧
    cstrlen default_cid < MAX_CID_LEN ∧
    cstrlen default_lac < MAX_LAC_LEN ∧
    RegistrationStatus.init.network_name = List.replicate 29 32 ++ [0] ∧
    RegistrationStatus.init.cid = List.replicate 15 32 ++ [0] ∧
    RegistrationStatus.init.lac = List.replicate 4 32 ++ [0] ∧
    RegistrationStatus.init.mnc = 0xFFFF ∧
    RegistrationStatus.init.mcc = 0xFFFF ∧
    RegistrationStatus.init.tac = 0xFFFF := by
  refine ⟨?_, by decide, by decide, by decide, by decide, by decide, by decide,
    rfl, rfl, rfl, rfl, rfl, rfl⟩
  exact applyRegWrites_ok StateStore.initial rs (by decide)

/-- C10: the default constructors of the three metrics records store the
`raw_rssi` sentinel written as 0xFF into a signed byte, so it reads as -1
and never compares equal to 0xFF taken as an unsigned 0-255 quantity; the
remaining default fields are exactly as declared in
`IConnManagerServiceTypes.h`. -/
theorem metrics_default_constructor_values :
    GsmMetrics.init.raw_rssi = sint8 0xFF ∧
    UmtsMetrics.init.raw_rssi = sint8 0xFF ∧
    LteMetrics.init.raw_rssi = sint8 0xFF ∧
    GsmMetrics.init.raw_rssi = -1 ∧
    UmtsMetrics.init.raw_rssi = -1 ∧
    LteMetrics.init.raw_rssi = -1 ∧
    GsmMetrics.init.raw_rssi ≠ (0xFF : Int) ∧
    UmtsMetrics.init.raw_rssi ≠ (0xFF : Int) ∧
    LteMetrics.init.raw_rssi ≠ (0xFF : Int) ∧
    GsmMetrics.init.bler = 99 ∧
    UmtsMetrics.init.rscp = 0 ∧
    UmtsMetrics.init.ecio = 0x7FFF ∧
    UmtsMetrics.init.bler = 0xFFFF ∧
    LteMetrics.init.rsrq = 0x7F ∧
    LteMetrics.init.rsrp = 0 ∧
    LteMetrics.init.snr = 0x7FFF := by
  decide

end ConnMgr
